import Mathlib

/-!
Shallow embedding of the `bootstrap` package of kubefire (`K3sBootstrapper`),
translated from `src/unnamed/part_000`.

External collaborators (node manager, ssh transport, retry library, config and
script helpers) are modelled as an explicit environment `Env` that fixes the
outcome of every external call; `Deploy` then becomes a pure function from the
environment and the cluster to a result and a trace of issued remote commands.
The concurrent Initialization Phase is serialized in node-list order: every
theorem below about that phase only inspects interleaving-invariant facts
(per-node event counts, membership of messages in the aggregated error).
-/

namespace Kubefire

/-- `K3sExtraOptions` from the source: server-only, agent-only and global
(unconditional) free-form install option strings. -/
structure K3sExtraOptions where
  serverInstallOpts : String
  agentInstallOpts  : String
  extraOptions      : String
  deriving DecidableEq

/-- A cluster node: name, role (master or not, `data.Node.IsMaster` is external
to the given sources and is modelled as a field) and its address string
(`Status.IPAddresses`). -/
structure Node where
  name        : String
  isMaster    : Bool
  ipAddresses : String
  deriving DecidableEq

/-- A cluster: name, spec version and the ordered node list
(`data.Cluster` fields used by the bootstrap package). -/
structure Cluster where
  name    : String
  version : String
  nodes   : List Node
  deriving DecidableEq

/-- Modelled from the spec: the node naming convention
`{clusterName}-{role}-{index}` (the `node.Name` helper is repository code that
is not under `src/`). -/
def nodeName (clusterName role : String) (index : Nat) : String :=
  clusterName ++ "-" ++ role ++ "-" ++ toString index

/-- Modelled from the spec: the role string of the designated bootstrap
primary (`node.Master`), "master" per the spec's glossary and naming examples. -/
def masterRole : String := "master"

/-- Modelled from the spec: `config.K3sVersionsEnvVars(version).String()`, the
version-pinning environment assignment string (repository code not under
`src/`); its exact content is irrelevant to every claim. -/
def k3sVersionsEnvVars (version : String) : String :=
  "INSTALL_K3S_VERSION=" ++ version

/-- Modelled from the spec: `script.InstallPrerequisitesK3s`, the fixed
prerequisite-install script name (repository code not under `src/`). -/
def installPrerequisitesK3s : String := "install-prerequisites-k3s.sh"

/-- Modelled from the spec: `script.RemoteScriptUrl`, the URL of a remote
script (repository code not under `src/`). -/
def remoteScriptUrl (s : String) : String :=
  "https://raw.githubusercontent.com/innobead/kubefire/master/scripts/" ++ s

/-- Outcome of one invocation of the retryable init closure on one node:
`utilssh.NewClient` fails (`connectFail`), the ssh command batch fails
(`runFail`), or everything succeeds. -/
inductive InitAttemptOutcome where
  | connectFail (msg : String)
  | runFail (msg : String)
  | ok
  deriving DecidableEq

/-- Remote commands and attempts issued by `Deploy`, in order. -/
inductive Event where
  | initAttempt (node : String) (attempt : Nat)
  | initCmd (node : String) (cmds : List String)
  | bootstrapCmd (node : String) (cmdline : String)
  | catTokenCmd (node : String)
  | joinAttempt (node : String)
  | joinCmd (node : String) (cmdline : String)
  deriving DecidableEq

/-- The errors `Deploy` can return, one constructor per `return err` site. -/
inductive DeployError where
  | preHookFailed (msg : String)
  | notReady (msg : String)
  | initFailed (msgs : List String)
  | nodeNotFound (msg : String)
  | bootstrapFailed (msg : String)
  | listFailed (msg : String)
  | noNodesAvailable
  | joinFailed (node : String) (msg : String)
  deriving DecidableEq

/-- The environment: outcomes of every external call made by `Deploy`.
`parsedExtraOptions` is the result of `cluster.Spec.ParseExtraOptions`
(external to the given sources); `waitErr` is the outcome of
`nodeManager.WaitNodesRunning(cluster.Name, 5)`; `getNode` of
`nodeManager.GetNode`; `initOutcome node attempt` the outcome of the
retry closure's invocation number `attempt` on `node`;
`tokenFileContent` the raw stdout captured from
`cat /var/lib/rancher/k3s/server/node-token`. -/
structure Env where
  preHookErr          : Option String
  parsedExtraOptions  : K3sExtraOptions
  waitErr             : Option String
  initOutcome         : String → Nat → InitAttemptOutcome
  getNode             : String → Option Node
  bootstrapConnectErr : Option String
  bootstrapRunErr     : Option String
  catErr              : Option String
  tokenFileContent    : String
  listNodesResult     : Except String (List Node)
  joinConnectErr      : String → Option String
  joinRunErr          : String → Option String

/-- The attempt budget of `retry.Do`: the source sets only `retry.Delay` and
`retry.MaxDelay`, so the retry-go library default of 10 attempts applies. -/
def retryAttempts : Nat := 10

/-- The four-command prerequisite batch run on every node during init. -/
def initCmds (version : String) : List String :=
  ["swapoff -a",
   "curl -sSLO " ++ remoteScriptUrl installPrerequisitesK3s,
   "chmod +x " ++ installPrerequisitesK3s,
   k3sVersionsEnvVars version ++ " ./" ++ installPrerequisitesK3s]

/-- One node's `retry.Do` loop, from the source's init closure: a connection
failure is returned to the retry mechanism (so it re-attempts, consuming
fuel); a command-run failure is pushed to the error channel while the closure
returns nil (reported as success, so no further attempt); the final error of
an exhausted `retry.Do` is discarded (`_ = retry.Do(...)`), so exhaustion
contributes nothing. Returns (messages pushed to `chErr`, events). -/
def initNodeGo (env : Env) (nname : String) (cmds : List String) :
    Nat → Nat → List String × List Event
  | _, 0 => ([], [])
  | attempt, fuel + 1 =>
    match env.initOutcome nname attempt with
    | .connectFail _ =>
        let r := initNodeGo env nname cmds (attempt + 1) fuel
        (r.1, .initAttempt nname attempt :: r.2)
    | .runFail msg =>
        (["failed on node (" ++ nname ++ "): " ++ msg],
         [.initAttempt nname attempt, .initCmd nname cmds])
    | .ok =>
        ([], [.initAttempt nname attempt, .initCmd nname cmds])

/-- One node's whole initialization task. -/
def initNode (env : Env) (version : String) (n : Node) : List String × List Event :=
  initNodeGo env n.name (initCmds version) 0 retryAttempts

/-- The Initialization Phase over the node list (the concurrent tasks are
serialized in node-list order; see the module docstring). Returns the
collected error messages (the multierror contents) and the event trace. -/
def initPhase (env : Env) (version : String) : List Node → List String × List Event
  | [] => ([], [])
  | n :: rest =>
    let r := initNode env version n
    let rs := initPhase env version rest
    (r.1 ++ rs.1, r.2 ++ rs.2)

/-- The install-exec argument list built by `K3sBootstrapper.bootstrap`:
bind-address flag, then `--cluster-init` unless the cluster is single-node,
then the server extra options when non-empty. -/
def bootstrapOpts (n : Node) (isSingleNode : Bool) (extra : K3sExtraOptions) :
    List String :=
  let opts := ["--bind-address=" ++ n.ipAddresses]
  let opts := if isSingleNode then opts else opts ++ ["--cluster-init"]
  if extra.serverInstallOpts ≠ "" then opts ++ [extra.serverInstallOpts] else opts

/-- The bootstrap install command line, from
`fmt.Sprintf("INSTALL_K3S_EXEC=\"%s\" %s k3s-install.sh ", ...)`. -/
def bootstrapCmdline (n : Node) (isSingleNode : Bool) (extra : K3sExtraOptions) :
    String :=
  "INSTALL_K3S_EXEC=\"" ++ String.intercalate " " (bootstrapOpts n isSingleNode extra)
    ++ "\" " ++ extra.extraOptions ++ " k3s-install.sh "

/-- Go's `strings.TrimSuffix(s, "\n")`: remove one trailing newline when
present, otherwise return the string unchanged. -/
def trimSuffixNewline (s : String) : String :=
  if s.data.getLast? = some '\n' then ⟨s.data.dropLast⟩ else s

/-- The Bootstrap Phase on the primary: connect, run the install command, run
the token-file `cat` capturing stdout, and return the captured content with
one trailing newline stripped. Any failure aborts with that error. -/
def bootstrapPhase (env : Env) (n : Node) (isSingleNode : Bool)
    (extra : K3sExtraOptions) : Except String String × List Event :=
  match env.bootstrapConnectErr with
  | some e => (.error e, [])
  | none =>
    let cmdline := bootstrapCmdline n isSingleNode extra
    match env.bootstrapRunErr with
    | some e => (.error e, [.bootstrapCmd n.name cmdline])
    | none =>
      match env.catErr with
      | some e => (.error e, [.bootstrapCmd n.name cmdline, .catTokenCmd n.name])
      | none =>
        (.ok (trimSuffixNewline env.tokenFileContent),
         [.bootstrapCmd n.name cmdline, .catTokenCmd n.name])

/-- The install-exec argument list built by `K3sBootstrapper.join`: a master
gets `--server` and the server extra options (when non-empty); any other node
gets only the agent extra options (when non-empty). -/
def joinOpts (n : Node) (extra : K3sExtraOptions) : List String :=
  if n.isMaster then
    ["--server"] ++ (if extra.serverInstallOpts ≠ "" then [extra.serverInstallOpts] else [])
  else
    if extra.agentInstallOpts ≠ "" then [extra.agentInstallOpts] else []

/-- The join command line: the source builds
`cmd := fmt.Sprintf("K3S_URL=https://%s:6443 K3S_TOKEN=%s k3s-install.sh", ...)`
and then sets `cmd = fmt.Sprintf("INSTALL_K3S_EXEC=\"%s\" %s", opts, extra) + cmd`,
a direct string concatenation with no separator. -/
def joinCmdline (n : Node) (apiServerAddress joinToken : String)
    (extra : K3sExtraOptions) : String :=
  ("INSTALL_K3S_EXEC=\"" ++ String.intercalate " " (joinOpts n extra) ++ "\" "
      ++ extra.extraOptions)
    ++ ("K3S_URL=https://" ++ apiServerAddress ++ ":6443 K3S_TOKEN=" ++ joinToken
      ++ " k3s-install.sh")

/-- The Join Phase on one node: connect, then run the single composed command.
Returns `some (nodeName, msg)` on failure. -/
def joinNode (env : Env) (n : Node) (apiServerAddress joinToken : String)
    (extra : K3sExtraOptions) : Option (String × String) × List Event :=
  match env.joinConnectErr n.name with
  | some e => (some (n.name, e), [.joinAttempt n.name])
  | none =>
    let cmd := joinCmdline n apiServerAddress joinToken extra
    match env.joinRunErr n.name with
    | some e => (some (n.name, e), [.joinAttempt n.name, .joinCmd n.name cmd])
    | none => (none, [.joinAttempt n.name, .joinCmd n.name cmd])

/-- The join loop of `Deploy`: every listed node except the one named like the
primary, in list order, stopping at the first failure. -/
def joinAll (env : Env) (primaryName apiServerAddress joinToken : String)
    (extra : K3sExtraOptions) : List Node → Option (String × String) × List Event
  | [] => (none, [])
  | n :: rest =>
    if n.name = primaryName then
      joinAll env primaryName apiServerAddress joinToken extra rest
    else
      match joinNode env n apiServerAddress joinToken extra with
      | (some e, evs) => (some e, evs)
      | (none, evs) =>
        let rs := joinAll env primaryName apiServerAddress joinToken extra rest
        (rs.1, evs ++ rs.2)

/-- `K3sBootstrapper.Deploy`, step for step from the source: pre-hook, option
parsing, `WaitNodesRunning(cluster.Name, 5)`, the Initialization Phase, primary
resolution by conventional name, the Bootstrap Phase with
`isSingleNode = (len(cluster.Nodes) == 1)`, node re-listing with the
`no nodes available` check, and the join loop. -/
def Deploy (env : Env) (cluster : Cluster) : Option DeployError × List Event :=
  match env.preHookErr with
  | some e => (some (.preHookFailed e), [])
  | none =>
    let extra := env.parsedExtraOptions
    match env.waitErr with
    | some e => (some (.notReady ("some nodes are not running: " ++ e)), [])
    | none =>
      let ir := initPhase env cluster.version cluster.nodes
      if ir.1 ≠ [] then (some (.initFailed ir.1), ir.2)
      else
        match env.getNode (nodeName cluster.name masterRole 1) with
        | none => (some (.nodeNotFound (nodeName cluster.name masterRole 1)), ir.2)
        | some firstMaster =>
          match bootstrapPhase env firstMaster (cluster.nodes.length == 1) extra with
          | (.error e, bevs) => (some (.bootstrapFailed e), ir.2 ++ bevs)
          | (.ok joinToken, bevs) =>
            match env.listNodesResult with
            | .error e => (some (.listFailed e), ir.2 ++ bevs)
            | .ok nodes =>
              if nodes = [] then (some .noNodesAvailable, ir.2 ++ bevs)
              else
                match joinAll env firstMaster.name firstMaster.ipAddresses
                    joinToken extra nodes with
                | (some (nn, msg), jevs) =>
                  (some (.joinFailed nn msg), ir.2 ++ bevs ++ jevs)
                | (none, jevs) => (none, ir.2 ++ bevs ++ jevs)

/-- Whether the trace contains a bootstrap install command. -/
def bootstrapIssued (evs : List Event) : Bool :=
  evs.any fun e => match e with | .bootstrapCmd _ _ => true | _ => false

/-- Whether the trace contains a join command. -/
def joinIssued (evs : List Event) : Bool :=
  evs.any fun e => match e with | .joinCmd _ _ => true | _ => false

/-- The names of the nodes on which a join was attempted, in trace order. -/
def joinAttempted (evs : List Event) : List String :=
  evs.filterMap fun e => match e with | .joinAttempt n => some n | _ => none

/-- How many times the init retry closure ran for a given node. -/
def initAttemptCount (evs : List Event) (nname : String) : Nat :=
  (evs.filter fun e =>
    match e with | .initAttempt n _ => n = nname | _ => false).length

/-- How many times the init command batch actually executed on a given node. -/
def initCmdCount (evs : List Event) (nname : String) : Nat :=
  (evs.filter fun e =>
    match e with | .initCmd n _ => n = nname | _ => false).length

/-- The run failure that a node's init task will push to the collector: the
outcome of the first attempt whose connection succeeds, within the attempt
budget; `none` when that attempt succeeds or when every attempt's connection
fails (in which case the retry error is discarded by the source). -/
def decisiveRunFailureGo (env : Env) (nname : String) : Nat → Nat → Option String
  | _, 0 => none
  | attempt, fuel + 1 =>
    match env.initOutcome nname attempt with
    | .connectFail _ => decisiveRunFailureGo env nname (attempt + 1) fuel
    | .runFail msg => some msg
    | .ok => none

/-- `decisiveRunFailureGo` started at attempt 0 with the full budget. -/
def decisiveRunFailure (env : Env) (nname : String) : Option String :=
  decisiveRunFailureGo env nname 0 retryAttempts

/-- Whether a node's join fails (either the connection or the command). -/
def joinFails (env : Env) (n : Node) : Bool :=
  (env.joinConnectErr n.name).isSome || (env.joinRunErr n.name).isSome

/-- The error message a failing join reports (connection error first). -/
def joinFailMsg (env : Env) (n : Node) : String :=
  match env.joinConnectErr n.name with
  | some e => e
  | none => (env.joinRunErr n.name).getD ""

/-- The nodes the join loop will actually visit: every listed node whose name
differs from the primary's, in list order. -/
def joinCandidates (ns : List Node) (primaryName : String) : List Node :=
  ns.filter fun n => n.name ≠ primaryName

/-! Concrete clusters and environments used by witnesses and counterexamples. -/

/-- The designated primary of the demo cluster (master role, index 1). -/
def demoMaster : Node := ⟨"demo-master-1", true, "10.0.0.1"⟩

/-- A plain (agent) secondary node. -/
def demoNode2 : Node := ⟨"demo-node-2", false, "10.0.0.2"⟩

/-- Another plain secondary node. -/
def demoNode3 : Node := ⟨"demo-node-3", false, "10.0.0.3"⟩

/-- A two-node demo cluster (primary plus one agent secondary). -/
def demoCluster2 : Cluster := ⟨"demo", "v1.19.2", [demoMaster, demoNode2]⟩

/-- A three-node demo cluster. -/
def demoCluster3 : Cluster := ⟨"demo", "v1.19.2", [demoMaster, demoNode2, demoNode3]⟩

/-- An environment in which every external call of a two-node deploy
succeeds. -/
def demoEnv : Env where
  preHookErr := none
  parsedExtraOptions := ⟨"", "", ""⟩
  waitErr := none
  initOutcome := fun _ _ => .ok
  getNode := fun s => if s = "demo-master-1" then some demoMaster else none
  bootstrapConnectErr := none
  bootstrapRunErr := none
  catErr := none
  tokenFileContent := "K10abc::server:xyz\n"
  listNodesResult := .ok [demoMaster, demoNode2]
  joinConnectErr := fun _ => none
  joinRunErr := fun _ => none

/-- All-success environment for the three-node cluster. -/
def demoEnv3 : Env :=
  { demoEnv with listNodesResult := .ok [demoMaster, demoNode2, demoNode3] }

/-- Environment in which the secondary's ssh connection fails on every init
attempt (a persistent connection-establishment failure). -/
def envConnFail : Env :=
  { demoEnv with initOutcome := fun n _ =>
      if n = "demo-node-2" then .connectFail "connection refused" else .ok }

/-- Environment in which the secondary's init command batch fails (the
connection itself succeeds). -/
def envRunFail : Env :=
  { demoEnv with initOutcome := fun n _ =>
      if n = "demo-node-2" then .runFail "exit status 1" else .ok }

/-- Environment in which the secondary's first init connection attempt fails
and every later attempt succeeds. -/
def envConnOnce : Env :=
  { demoEnv with initOutcome := fun n k =>
      if n = "demo-node-2" ∧ k = 0 then .connectFail "connection refused" else .ok }

/-- Environment in which the readiness wait fails. -/
def envWaitFail : Env :=
  { demoEnv with waitErr := some "nodes not running after 5 retries" }

/-- Environment in which the primary's token file contains only a newline, so
the harvested join token is empty. -/
def envEmptyToken : Env :=
  { demoEnv with tokenFileContent := "\n" }

/-- Environment in which the post-bootstrap node listing is empty. -/
def envEmptyList : Env :=
  { demoEnv with listNodesResult := .ok [] }

/-- Three-node environment in which the first secondary's join command fails,
so the second secondary must never be attempted. -/
def envJoinFail3 : Env :=
  { demoEnv3 with joinRunErr := fun n =>
      if n = "demo-node-2" then some "exit status 1" else none }

/-! Theorems. -/

/-- Go's TrimSuffix semantics: when the captured content ends in a newline the
returned token is the content with exactly that one newline removed, and
otherwise the content is returned unchanged. -/
theorem trimSuffixNewline_eq (s : String) :
    (s.data.getLast? = some '\n' → s = trimSuffixNewline s ++ "\n") ∧
    (s.data.getLast? ≠ some '\n' → trimSuffixNewline s = s) := by
  constructor
  · intro h
    apply String.ext
    rw [trimSuffixNewline, if_pos h, String.data_append]
    have hnl : ("\n" : String).data = ['\n'] := by decide
    rw [hnl]
    exact (List.dropLast_append_getLast? '\n' (Option.mem_def.mpr h)).symm
  · intro h
    rw [trimSuffixNewline, if_neg h]

/-- The bind-address flag is 15 characters plus the address. -/
theorem length_bindFlag (addr : String) :
    ("--bind-address=" ++ addr).length = 15 + addr.length := by
  have h : ("--bind-address=" : String).length = 15 := by decide
  rw [String.length_append, h]

/-- The bind-address flag is never the cluster-initialization flag. -/
theorem bindFlag_ne_clusterInit (addr : String) :
    ("--bind-address=" ++ addr) ≠ "--cluster-init" := by
  intro h
  have hl := congrArg String.length h
  rw [length_bindFlag] at hl
  have : ("--cluster-init" : String).length = 14 := by decide
  omega

/-- The bind-address flag is never the empty string. -/
theorem bindFlag_ne_empty (addr : String) :
    ("--bind-address=" ++ addr) ≠ "" := by
  intro h
  have hl := congrArg String.length h
  rw [length_bindFlag] at hl
  have : ("" : String).length = 0 := by decide
  omega

/-- C7: after the pre-hook, Deploy consults the readiness wait first
(`WaitNodesRunning(cluster.Name, 5)`, a bounded wait whose expected-count
semantics live in the external Node Manager); when the wait reports failure,
Deploy returns a NotReady-style error wrapping it and the command trace is
empty — no initialization, bootstrap or join command is ever issued. -/
theorem C7_wait_gate (env : Env) (cluster : Cluster) (e : String)
    (hpre : env.preHookErr = none) (hwait : env.waitErr = some e) :
    Deploy env cluster =
      (some (.notReady ("some nodes are not running: " ++ e)), []) := by
  simp [Deploy, hpre, hwait]

/-- C7 witness at a concrete environment whose readiness wait fails. -/
theorem C7_wait_gate_witness :
    envWaitFail.preHookErr = none ∧
    envWaitFail.waitErr = some "nodes not running after 5 retries" ∧
    Deploy envWaitFail demoCluster2 =
      (some (.notReady
        ("some nodes are not running: " ++ "nodes not running after 5 retries")), []) :=
  ⟨rfl, rfl, C7_wait_gate envWaitFail demoCluster2 _ rfl rfl⟩

/-- C4: the bootstrap install-exec list contains the bind-address flag for the
primary's address; it contains the cluster-initialization flag exactly when
the cluster has more than one node (given the data-model invariant that a
cluster has at least one node, since the source tests `len(cluster.Nodes) == 1`);
and it contains the server extra options exactly when they are non-empty
(assuming they are not spelled exactly like the cluster-init flag). -/
theorem C4_bootstrap_optlist (cluster : Cluster) (n : Node) (extra : K3sExtraOptions)
    (hn : 1 ≤ cluster.nodes.length)
    (hs : extra.serverInstallOpts ≠ "--cluster-init") :
    (("--bind-address=" ++ n.ipAddresses) ∈
      bootstrapOpts n (cluster.nodes.length == 1) extra) ∧
    ("--cluster-init" ∈ bootstrapOpts n (cluster.nodes.length == 1) extra ↔
      1 < cluster.nodes.length) ∧
    (extra.serverInstallOpts ∈ bootstrapOpts n (cluster.nodes.length == 1) extra ↔
      extra.serverInstallOpts ≠ "") := by
  have hbc := bindFlag_ne_clusterInit n.ipAddresses
  have hbe := bindFlag_ne_empty n.ipAddresses
  have hci : ("--cluster-init" : String) ≠ "" := by decide
  by_cases hlen : cluster.nodes.length = 1
  · have hb : (cluster.nodes.length == 1) = true := by simp [hlen]
    rw [hb]
    by_cases hso : extra.serverInstallOpts = ""
    · have hopts : bootstrapOpts n true extra =
          ["--bind-address=" ++ n.ipAddresses] := by
        simp [bootstrapOpts, hso]
      rw [hopts]
      refine ⟨List.mem_singleton_self _, ⟨?_, ?_⟩, ⟨?_, ?_⟩⟩
      · intro hmem
        exact absurd (List.mem_singleton.mp hmem).symm hbc
      · intro hlt
        omega
      · intro hmem
        exact absurd ((hso ▸ List.mem_singleton.mp hmem)).symm hbe
      · intro hne
        exact absurd hso hne
    · have hopts : bootstrapOpts n true extra =
          ["--bind-address=" ++ n.ipAddresses, extra.serverInstallOpts] := by
        simp [bootstrapOpts, hso]
      rw [hopts]
      refine ⟨List.mem_cons_self _ _, ⟨?_, ?_⟩, ⟨fun _ => hso, ?_⟩⟩
      · intro hmem
        rcases List.mem_cons.mp hmem with h' | h'
        · exact absurd h'.symm hbc
        · exact absurd (List.mem_singleton.mp h').symm hs
      · intro hlt
        omega
      · intro _
        exact List.mem_cons.mpr (Or.inr (List.mem_singleton_self _))
  · have hb : (cluster.nodes.length == 1) = false := by simp [hlen]
    rw [hb]
    have hlt : 1 < cluster.nodes.length := by omega
    by_cases hso : extra.serverInstallOpts = ""
    · have hopts : bootstrapOpts n false extra =
          ["--bind-address=" ++ n.ipAddresses, "--cluster-init"] := by
        simp [bootstrapOpts, hso]
      rw [hopts]
      refine ⟨List.mem_cons_self _ _,
        ⟨fun _ => hlt, fun _ => List.mem_cons.mpr (.inr (List.mem_singleton_self _))⟩,
        ⟨?_, ?_⟩⟩
      · intro hmem
        rcases List.mem_cons.mp hmem with h' | h'
        · exact absurd ((hso ▸ h')).symm hbe
        · exact absurd ((hso ▸ List.mem_singleton.mp h')).symm hci
      · intro hne
        exact absurd hso hne
    · have hopts : bootstrapOpts n false extra =
          ["--bind-address=" ++ n.ipAddresses, "--cluster-init",
            extra.serverInstallOpts] := by
        simp [bootstrapOpts, hso]
      rw [hopts]
      refine ⟨List.mem_cons_self _ _,
        ⟨fun _ => hlt, fun _ => List.mem_cons.mpr (.inr (List.mem_cons_self _ _))⟩,
        ⟨fun _ => hso, fun _ =>
          List.mem_cons.mpr (.inr (List.mem_cons.mpr (.inr (List.mem_singleton_self _))))⟩⟩

/-- C4 witness: a two-node cluster with non-empty server options. -/
theorem C4_bootstrap_optlist_witness :
    1 ≤ demoCluster2.nodes.length ∧
    ("--datastore-endpoint=etcd" : String) ≠ "--cluster-init" ∧
    ((("--bind-address=" ++ demoMaster.ipAddresses) ∈
      bootstrapOpts demoMaster (demoCluster2.nodes.length == 1)
        ⟨"--datastore-endpoint=etcd", "", ""⟩) ∧
    ("--cluster-init" ∈ bootstrapOpts demoMaster (demoCluster2.nodes.length == 1)
        ⟨"--datastore-endpoint=etcd", "", ""⟩ ↔
      1 < demoCluster2.nodes.length) ∧
    (("--datastore-endpoint=etcd" : String) ∈
        bootstrapOpts demoMaster (demoCluster2.nodes.length == 1)
          ⟨"--datastore-endpoint=etcd", "", ""⟩ ↔
      ("--datastore-endpoint=etcd" : String) ≠ "")) :=
  ⟨by decide, by decide,
    C4_bootstrap_optlist demoCluster2 demoMaster ⟨"--datastore-endpoint=etcd", "", ""⟩
      (by decide) (by decide)⟩

/-- C5: a joined node with the master role gets the join-as-server flag
`--server` and (when non-empty) the server extra options but never the agent
extra options; any other node never gets that flag nor the server extra
options, and gets exactly the agent extra options when non-empty (the
hypotheses rule out the degenerate aliasing where the agent option string is
spelled exactly like the flag or like the server option string). -/
theorem C5_join_role_options (n : Node) (extra : K3sExtraOptions)
    (h1 : extra.agentInstallOpts ≠ "--server")
    (h2 : extra.agentInstallOpts ≠ extra.serverInstallOpts) :
    (n.isMaster = true →
      "--server" ∈ joinOpts n extra ∧
      (extra.serverInstallOpts ≠ "" → extra.serverInstallOpts ∈ joinOpts n extra) ∧
      extra.agentInstallOpts ∉ joinOpts n extra) ∧
    (n.isMaster = false →
      "--server" ∉ joinOpts n extra ∧
      extra.serverInstallOpts ∉ joinOpts n extra ∧
      (extra.agentInstallOpts ≠ "" → extra.agentInstallOpts ∈ joinOpts n extra)) := by
  constructor
  · intro hm
    by_cases hso : extra.serverInstallOpts = ""
    · have hopts : joinOpts n extra = ["--server"] := by simp [joinOpts, hm, hso]
      rw [hopts]
      refine ⟨List.mem_singleton_self _, fun hne => absurd hso hne, ?_⟩
      intro hmem
      exact h1 (List.mem_singleton.mp hmem)
    · have hopts : joinOpts n extra = ["--server", extra.serverInstallOpts] := by
        simp [joinOpts, hm, hso]
      rw [hopts]
      refine ⟨List.mem_cons_self _ _,
        fun _ => List.mem_cons.mpr (.inr (List.mem_singleton_self _)), ?_⟩
      intro hmem
      rcases List.mem_cons.mp hmem with h' | h'
      · exact h1 h'
      · exact h2 (List.mem_singleton.mp h')
  · intro hm
    by_cases hao : extra.agentInstallOpts = ""
    · have hopts : joinOpts n extra = [] := by simp [joinOpts, hm, hao]
      rw [hopts]
      exact ⟨List.not_mem_nil _, List.not_mem_nil _, fun hne => absurd hao hne⟩
    · have hopts : joinOpts n extra = [extra.agentInstallOpts] := by
        simp [joinOpts, hm, hao]
      rw [hopts]
      refine ⟨?_, ?_, fun _ => List.mem_singleton_self _⟩
      · intro hmem
        exact h1 (List.mem_singleton.mp hmem).symm
      · intro hmem
        exact h2 (List.mem_singleton.mp hmem).symm

/-- C5 witness: one master-role node and one agent node, both option strings
non-empty and distinct. -/
theorem C5_join_role_options_witness :
    ("--no-deploy traefik" : String) ≠ "--server" ∧
    ("--no-deploy traefik" : String) ≠ "--disable-agent" ∧
    (demoMaster.isMaster = true →
      "--server" ∈ joinOpts demoMaster ⟨"--disable-agent", "--no-deploy traefik", ""⟩ ∧
      (("--disable-agent" : String) ≠ "" →
        ("--disable-agent" : String) ∈
          joinOpts demoMaster ⟨"--disable-agent", "--no-deploy traefik", ""⟩) ∧
      ("--no-deploy traefik" : String) ∉
        joinOpts demoMaster ⟨"--disable-agent", "--no-deploy traefik", ""⟩) ∧
    (demoNode2.isMaster = false →
      "--server" ∉ joinOpts demoNode2 ⟨"--disable-agent", "--no-deploy traefik", ""⟩ ∧
      ("--disable-agent" : String) ∉
        joinOpts demoNode2 ⟨"--disable-agent", "--no-deploy traefik", ""⟩ ∧
      (("--no-deploy traefik" : String) ≠ "" →
        ("--no-deploy traefik" : String) ∈
          joinOpts demoNode2 ⟨"--disable-agent", "--no-deploy traefik", ""⟩)) :=
  ⟨by decide, by decide,
    (C5_join_role_options demoMaster ⟨"--disable-agent", "--no-deploy traefik", ""⟩
      (by decide) (by decide)).1,
    (C5_join_role_options demoNode2 ⟨"--disable-agent", "--no-deploy traefik", ""⟩
      (by decide) (by decide)).2⟩

/-- C10: the composed join command is the environment part (the
INSTALL_K3S_EXEC assignment, a space, then the global extra-options string)
concatenated directly to the K3S_URL/K3S_TOKEN installer invocation with no
separating character: whenever the global extra-options string is non-empty,
its last character sits immediately before the letter K of K3S_URL. -/
theorem C10_adjacent (n : Node) (addr token : String) (extra : K3sExtraOptions)
    (h : extra.extraOptions ≠ "") :
    ∃ cs c, extra.extraOptions.data = cs ++ [c] ∧
      (joinCmdline n addr token extra).data =
        ("INSTALL_K3S_EXEC=\"" ++ String.intercalate " " (joinOpts n extra)
            ++ "\" ").data
          ++ cs ++ [c, 'K']
          ++ ("3S_URL=https://" ++ addr ++ ":6443 K3S_TOKEN=" ++ token
            ++ " k3s-install.sh").data := by
  have hempty : ([] : List Char) = ("" : String).data := by decide
  have hne : extra.extraOptions.data ≠ [] := fun hd => h (String.ext (hd.trans hempty))
  obtain ⟨cs, c, hE⟩ : ∃ cs c, extra.extraOptions.data = cs ++ [c] :=
    ⟨_, _, (List.dropLast_append_getLast hne).symm⟩
  refine ⟨cs, c, hE, ?_⟩
  have hK : ("K3S_URL=https://" : String).data =
      'K' :: ("3S_URL=https://" : String).data := by decide
  conv_lhs => rw [joinCmdline]
  simp only [String.data_append, hK, hE]
  simp [List.append_assoc]

/-- C10 witness: a concrete join command with the one-character global option
"x", whose character is immediately followed by the K of K3S_URL. -/
theorem C10_adjacent_witness :
    ("x" : String) ≠ "" ∧
    ∃ cs c, ("x" : String).data = cs ++ [c] ∧
      (joinCmdline demoNode2 "10.0.0.1" "tok" ⟨"", "", "x"⟩).data =
        ("INSTALL_K3S_EXEC=\"" ++ String.intercalate " " (joinOpts demoNode2 ⟨"", "", "x"⟩)
            ++ "\" ").data
          ++ cs ++ [c, 'K']
          ++ ("3S_URL=https://" ++ "10.0.0.1" ++ ":6443 K3S_TOKEN=" ++ "tok"
            ++ " k3s-install.sh").data :=
  ⟨by decide, C10_adjacent demoNode2 "10.0.0.1" "tok" ⟨"", "", "x"⟩ (by decide)⟩

/-- Appending traces distributes over the bootstrap-command query. -/
theorem bootstrapIssued_append (a b : List Event) :
    bootstrapIssued (a ++ b) = (bootstrapIssued a || bootstrapIssued b) := by
  simp [bootstrapIssued]

/-- Appending traces distributes over the join-command query. -/
theorem joinIssued_append (a b : List Event) :
    joinIssued (a ++ b) = (joinIssued a || joinIssued b) := by
  simp [joinIssued]

/-- Appending traces distributes over the attempted-join projection. -/
theorem joinAttempted_append (a b : List Event) :
    joinAttempted (a ++ b) = joinAttempted a ++ joinAttempted b := by
  simp [joinAttempted]

/-- Counting a matching attempt event at the head of a trace. -/
theorem initAttemptCount_cons_self (nname : String) (a : Nat) (evs : List Event) :
    initAttemptCount (Event.initAttempt nname a :: evs) nname =
      initAttemptCount evs nname + 1 := by
  simp [initAttemptCount]

/-- An init-command event never counts as an attempt. -/
theorem initAttemptCount_initCmd_cons (nname m : String) (cmds : List String)
    (evs : List Event) :
    initAttemptCount (Event.initCmd m cmds :: evs) nname =
      initAttemptCount evs nname := by
  simp [initAttemptCount]

/-- Every event of a node's retry loop is an init attempt or an init command
of that node. -/
theorem initNodeGo_events (env : Env) (nname : String) (cmds : List String) :
    ∀ fuel attempt e, e ∈ (initNodeGo env nname cmds attempt fuel).2 →
      (∃ a, e = Event.initAttempt nname a) ∨ e = Event.initCmd nname cmds := by
  intro fuel
  induction fuel with
  | zero =>
    intro attempt e he
    simp [initNodeGo] at he
  | succ fuel ih =>
    intro attempt e he
    cases h : env.initOutcome nname attempt with
    | connectFail msg =>
      simp only [initNodeGo, h] at he
      rcases List.mem_cons.mp he with rfl | he'
      · exact .inl ⟨attempt, rfl⟩
      · exact ih (attempt + 1) e he'
    | runFail msg =>
      simp only [initNodeGo, h] at he
      rcases List.mem_cons.mp he with rfl | he'
      · exact .inl ⟨attempt, rfl⟩
      · exact .inr (List.mem_singleton.mp he')
    | ok =>
      simp only [initNodeGo, h] at he
      rcases List.mem_cons.mp he with rfl | he'
      · exact .inl ⟨attempt, rfl⟩
      · exact .inr (List.mem_singleton.mp he')

/-- The error messages a node's retry loop pushes to the collector are exactly
those of its decisive run failure; in particular, a loop whose every attempt
fails at the connection stage pushes nothing at all. -/
theorem initNodeGo_errs (env : Env) (nname : String) (cmds : List String) :
    ∀ fuel attempt, (initNodeGo env nname cmds attempt fuel).1 =
      match decisiveRunFailureGo env nname attempt fuel with
      | some msg => ["failed on node (" ++ nname ++ "): " ++ msg]
      | none => [] := by
  intro fuel
  induction fuel with
  | zero => intro attempt; rfl
  | succ fuel ih =>
    intro attempt
    cases h : env.initOutcome nname attempt with
    | connectFail msg => simp [initNodeGo, decisiveRunFailureGo, h, ih]
    | runFail msg => simp [initNodeGo, decisiveRunFailureGo, h]
    | ok => simp [initNodeGo, decisiveRunFailureGo, h]

/-- The collector content of one node's whole init task. -/
theorem initNode_errs (env : Env) (version : String) (n : Node) :
    (initNode env version n).1 =
      match decisiveRunFailure env n.name with
      | some msg => ["failed on node (" ++ n.name ++ "): " ++ msg]
      | none => [] :=
  initNodeGo_errs env n.name (initCmds version) retryAttempts 0

/-- The command batch of a node's init task executes at most once, whatever
the attempt outcomes: a run failure is reported to the retry mechanism as
success, so it is never re-attempted. -/
theorem initNodeGo_cmdCount (env : Env) (nname : String) (cmds : List String) :
    ∀ fuel attempt,
      initCmdCount (initNodeGo env nname cmds attempt fuel).2 nname ≤ 1 := by
  intro fuel
  induction fuel with
  | zero => intro attempt; simp [initNodeGo, initCmdCount]
  | succ fuel ih =>
    intro attempt
    cases h : env.initOutcome nname attempt with
    | connectFail msg =>
      simpa [initNodeGo, h, initCmdCount] using ih (attempt + 1)
    | runFail msg => simp [initNodeGo, h, initCmdCount]
    | ok => simp [initNodeGo, h, initCmdCount]

/-- One step of the retry loop when the connection fails: record the attempt
and recurse. -/
theorem initNodeGo_connect_step (env : Env) (nname : String) (cmds : List String)
    (attempt fuel : Nat) (msg : String)
    (h : env.initOutcome nname attempt = .connectFail msg) :
    initNodeGo env nname cmds attempt (fuel + 1) =
      ((initNodeGo env nname cmds (attempt + 1) fuel).1,
        Event.initAttempt nname attempt ::
          (initNodeGo env nname cmds (attempt + 1) fuel).2) := by
  simp [initNodeGo, h]

/-- As long as fuel remains, the retry loop makes at least one attempt. -/
theorem initNodeGo_attempt_pos (env : Env) (nname : String) (cmds : List String) :
    ∀ fuel attempt, 0 < fuel →
      1 ≤ initAttemptCount (initNodeGo env nname cmds attempt fuel).2 nname := by
  intro fuel attempt hf
  obtain ⟨fuel', rfl⟩ : ∃ f, fuel = f + 1 := ⟨fuel - 1, by omega⟩
  cases h : env.initOutcome nname attempt with
  | connectFail msg =>
    simp only [initNodeGo, h]
    rw [initAttemptCount_cons_self]
    omega
  | runFail msg =>
    simp only [initNodeGo, h]
    rw [initAttemptCount_cons_self]
    omega
  | ok =>
    simp only [initNodeGo, h]
    rw [initAttemptCount_cons_self]
    omega

/-- One node's init task issues only init events: no bootstrap command, no
join command, no join attempt. -/
theorem initNode_trace (env : Env) (version : String) (n : Node) :
    bootstrapIssued (initNode env version n).2 = false ∧
    joinIssued (initNode env version n).2 = false ∧
    joinAttempted (initNode env version n).2 = [] ∧
    (∀ nn cmd, Event.joinCmd nn cmd ∉ (initNode env version n).2) := by
  have hev := initNodeGo_events env n.name (initCmds version) retryAttempts 0
  refine ⟨?_, ?_, ?_, ?_⟩
  · rw [bootstrapIssued, List.any_eq_false]
    intro e he
    rcases hev e he with ⟨a, rfl⟩ | rfl <;> simp
  · rw [joinIssued, List.any_eq_false]
    intro e he
    rcases hev e he with ⟨a, rfl⟩ | rfl <;> simp
  · rw [joinAttempted, List.filterMap_eq_nil_iff]
    intro e he
    rcases hev e he with ⟨a, rfl⟩ | rfl <;> rfl
  · intro nn cmd hmem
    rcases hev _ hmem with ⟨a, h'⟩ | h' <;> simp at h'

/-- The whole Initialization Phase issues only init events. -/
theorem initPhase_trace (env : Env) (version : String) : ∀ ns : List Node,
    bootstrapIssued (initPhase env version ns).2 = false ∧
    joinIssued (initPhase env version ns).2 = false ∧
    joinAttempted (initPhase env version ns).2 = [] ∧
    (∀ nn cmd, Event.joinCmd nn cmd ∉ (initPhase env version ns).2) := by
  intro ns
  induction ns with
  | nil =>
    refine ⟨rfl, rfl, rfl, ?_⟩
    intro nn cmd h
    simp [initPhase] at h
  | cons n rest ih =>
    obtain ⟨a1, a2, a3, a4⟩ := initNode_trace env version n
    obtain ⟨b1, b2, b3, b4⟩ := ih
    refine ⟨?_, ?_, ?_, ?_⟩
    · show bootstrapIssued ((initNode env version n).2 ++ (initPhase env version rest).2)
        = false
      rw [bootstrapIssued_append, a1, b1]
      rfl
    · show joinIssued ((initNode env version n).2 ++ (initPhase env version rest).2)
        = false
      rw [joinIssued_append, a2, b2]
      rfl
    · show joinAttempted ((initNode env version n).2 ++ (initPhase env version rest).2)
        = []
      rw [joinAttempted_append, a3, b3]
      rfl
    · intro nn cmd hmem
      rcases List.mem_append.mp hmem with h' | h'
      · exact a4 nn cmd h'
      · exact b4 nn cmd h'

/-- A node whose decisive outcome is a run failure contributes its message,
which names the node, to the phase's collected errors. -/
theorem runFailure_mem_initPhase (env : Env) (version : String) :
    ∀ ns : List Node, ∀ n ∈ ns, ∀ msg,
      decisiveRunFailure env n.name = some msg →
      ("failed on node (" ++ n.name ++ "): " ++ msg) ∈
        (initPhase env version ns).1 := by
  intro ns
  induction ns with
  | nil =>
    intro n hn
    simp at hn
  | cons m rest ih =>
    intro n hn msg hmsg
    rcases List.mem_cons.mp hn with rfl | hn'
    · show _ ∈ (initNode env version n).1 ++ (initPhase env version rest).1
      apply List.mem_append_left
      rw [initNode_errs, hmsg]
      exact List.mem_singleton_self _
    · show _ ∈ (initNode env version m).1 ++ (initPhase env version rest).1
      exact List.mem_append_right _ (ih n hn' msg hmsg)

/-- C1 (amended): when the Initialization Phase collects any failure, Deploy
returns the aggregated error made of exactly the collected messages and
issues no bootstrap and no join command; the message set contains, for every
node whose decisive outcome was a command-run failure, a message naming that
node. (Connection-establishment failures, by contrast, are retried and then
silently discarded — see the counterexample — so they are not part of the
aggregate.) -/
theorem C1_aggregate_and_gate (env : Env) (cluster : Cluster)
    (hpre : env.preHookErr = none) (hwait : env.waitErr = none)
    (hfail : (initPhase env cluster.version cluster.nodes).1 ≠ []) :
    (Deploy env cluster).1 =
      some (.initFailed (initPhase env cluster.version cluster.nodes).1) ∧
    bootstrapIssued (Deploy env cluster).2 = false ∧
    joinIssued (Deploy env cluster).2 = false ∧
    ∀ n ∈ cluster.nodes, ∀ msg, decisiveRunFailure env n.name = some msg →
      ("failed on node (" ++ n.name ++ "): " ++ msg) ∈
        (initPhase env cluster.version cluster.nodes).1 := by
  have hD : Deploy env cluster =
      (some (.initFailed (initPhase env cluster.version cluster.nodes).1),
        (initPhase env cluster.version cluster.nodes).2) := by
    simp [Deploy, hpre, hwait, hfail]
  obtain ⟨t1, t2, _, _⟩ := initPhase_trace env cluster.version cluster.nodes
  exact ⟨by rw [hD], by rw [hD]; exact t1, by rw [hD]; exact t2,
    fun n hn msg hmsg => runFailure_mem_initPhase env cluster.version
      cluster.nodes n hn msg hmsg⟩

/-- C1 witness: a two-node cluster whose secondary's command batch fails. -/
theorem C1_aggregate_and_gate_witness :
    (initPhase envRunFail demoCluster2.version demoCluster2.nodes).1 ≠ [] ∧
    ((Deploy envRunFail demoCluster2).1 =
        some (.initFailed (initPhase envRunFail demoCluster2.version
          demoCluster2.nodes).1) ∧
      bootstrapIssued (Deploy envRunFail demoCluster2).2 = false ∧
      joinIssued (Deploy envRunFail demoCluster2).2 = false ∧
      ∀ n ∈ demoCluster2.nodes, ∀ msg,
        decisiveRunFailure envRunFail n.name = some msg →
        ("failed on node (" ++ n.name ++ "): " ++ msg) ∈
          (initPhase envRunFail demoCluster2.version demoCluster2.nodes).1) :=
  ⟨by decide, C1_aggregate_and_gate envRunFail demoCluster2 rfl rfl (by decide)⟩

/-- C1 counterexample: a secondary whose initialization fails with a
connection error on all ten attempts contributes nothing to the collected
errors; Deploy returns no error at all and the bootstrap command IS issued —
refuting the claim that any init failure (including connection failures)
yields an aggregated error naming the node and suppresses bootstrap. -/
theorem C1_counterexample :
    envConnFail.initOutcome "demo-node-2" 0 = .connectFail "connection refused" ∧
    initAttemptCount (Deploy envConnFail demoCluster2).2 "demo-node-2"
      = retryAttempts ∧
    (initPhase envConnFail demoCluster2.version demoCluster2.nodes).1 = [] ∧
    (Deploy envConnFail demoCluster2).1 = none ∧
    bootstrapIssued (Deploy envConnFail demoCluster2).2 = true := by
  decide

/-- C2 (amended): the retryable closure reports success to the retry
mechanism whenever the connection was established — even when the command
batch failed, that failure going only to the side collector — so the batch
runs at most once per node and a decisive first attempt means exactly one
attempt; but a connection-establishment failure is returned to the retry
mechanism, which then genuinely re-attempts: the backoff policy is inert only
for command failures, not for connection failures. -/
theorem C2_retry_behavior (env : Env) (version : String) (n : Node) :
    initCmdCount (initNode env version n).2 n.name ≤ 1 ∧
    (∀ msg, env.initOutcome n.name 0 = .runFail msg →
      initAttemptCount (initNode env version n).2 n.name = 1) ∧
    (env.initOutcome n.name 0 = .ok →
      initAttemptCount (initNode env version n).2 n.name = 1) ∧
    (∀ msg, env.initOutcome n.name 0 = .connectFail msg →
      2 ≤ initAttemptCount (initNode env version n).2 n.name) := by
  refine ⟨initNodeGo_cmdCount env n.name (initCmds version) retryAttempts 0,
    ?_, ?_, ?_⟩
  · intro msg h
    have hr : retryAttempts = 9 + 1 := rfl
    rw [initNode, hr]
    simp only [initNodeGo, h]
    rw [initAttemptCount_cons_self, initAttemptCount_initCmd_cons]
    rfl
  · intro h
    have hr : retryAttempts = 9 + 1 := rfl
    rw [initNode, hr]
    simp only [initNodeGo, h]
    rw [initAttemptCount_cons_self, initAttemptCount_initCmd_cons]
    rfl
  · intro msg h
    have hr : retryAttempts = 9 + 1 := rfl
    rw [initNode, hr, initNodeGo_connect_step env n.name (initCmds version) 0 9 msg h]
    rw [initAttemptCount_cons_self]
    have hpos := initNodeGo_attempt_pos env n.name (initCmds version) 9 (0 + 1)
      (by omega)
    omega

/-- C2 witness: a decisive (run-failure) first attempt yields exactly one
attempt, while a connection failure on the first attempt yields at least a
second one. -/
theorem C2_retry_behavior_witness :
    (∃ msg, envRunFail.initOutcome "demo-node-2" 0 = .runFail msg) ∧
    initAttemptCount (initNode envRunFail "v1.19.2" demoNode2).2 "demo-node-2" = 1 ∧
    (∃ msg, envConnOnce.initOutcome "demo-node-2" 0 = .connectFail msg) ∧
    2 ≤ initAttemptCount (initNode envConnOnce "v1.19.2" demoNode2).2 "demo-node-2" := by
  refine ⟨⟨"exit status 1", by decide⟩, ?_, ⟨"connection refused", by decide⟩, ?_⟩
  · exact (C2_retry_behavior envRunFail "v1.19.2" demoNode2).2.1 "exit status 1"
      (by decide)
  · exact (C2_retry_behavior envConnOnce "v1.19.2" demoNode2).2.2.2 "connection refused"
      (by decide)

/-- C2 counterexample: the retryable unit does not always report success —
the first attempt's connection failure is reported to the retry mechanism,
which re-attempts, so two attempts occur for this node, not one. -/
theorem C2_counterexample :
    envConnOnce.initOutcome "demo-node-2" 0 = .connectFail "connection refused" ∧
    envConnOnce.initOutcome "demo-node-2" 1 = .ok ∧
    initAttemptCount (Deploy envConnOnce demoCluster2).2 "demo-node-2" = 2 := by
  decide

/-- A non-failing join has both external outcomes clear. -/
theorem joinFails_eq_false (env : Env) (n : Node) (h : joinFails env n = false) :
    env.joinConnectErr n.name = none ∧ env.joinRunErr n.name = none := by
  cases hc : env.joinConnectErr n.name <;> cases hr : env.joinRunErr n.name <;>
    simp_all [joinFails]

/-- A successful join issues exactly the attempt and the composed command. -/
theorem joinNode_ok (env : Env) (n : Node) (a t : String) (e : K3sExtraOptions)
    (hc : env.joinConnectErr n.name = none) (hr : env.joinRunErr n.name = none) :
    joinNode env n a t e =
      (none, [.joinAttempt n.name, .joinCmd n.name (joinCmdline n a t e)]) := by
  simp [joinNode, hc, hr]

/-- A failing join returns the node's name and message; the only join attempt
in its trace is this node's. -/
theorem joinNode_fail (env : Env) (n : Node) (a t : String) (e : K3sExtraOptions)
    (hf : joinFails env n = true) :
    ∃ evs, joinNode env n a t e = (some (n.name, joinFailMsg env n), evs) ∧
      joinAttempted evs = [n.name] := by
  cases hc : env.joinConnectErr n.name with
  | some msg =>
    refine ⟨[.joinAttempt n.name], ?_, by simp [joinAttempted]⟩
    simp [joinNode, hc, joinFailMsg]
  | none =>
    cases hr : env.joinRunErr n.name with
    | some msg =>
      refine ⟨[.joinAttempt n.name, .joinCmd n.name (joinCmdline n a t e)], ?_,
        by simp [joinAttempted]⟩
      simp [joinNode, hc, hr, joinFailMsg]
    | none =>
      rw [joinFails, hc, hr] at hf
      simp at hf

/-- Filtering on the primary's name: a matching head is skipped. -/
theorem joinCandidates_cons_skip (ns : List Node) (p : String) (n : Node)
    (h : n.name = p) : joinCandidates (n :: ns) p = joinCandidates ns p := by
  simp [joinCandidates, List.filter_cons, h]

/-- Filtering on the primary's name: a non-matching head is kept. -/
theorem joinCandidates_cons_keep (ns : List Node) (p : String) (n : Node)
    (h : ¬n.name = p) : joinCandidates (n :: ns) p = n :: joinCandidates ns p := by
  simp [joinCandidates, List.filter_cons, h]

/-- The join loop skips a node named like the primary. -/
theorem joinAll_cons_skip (env : Env) (p a t : String) (e : K3sExtraOptions)
    (n : Node) (ns : List Node) (h : n.name = p) :
    joinAll env p a t e (n :: ns) = joinAll env p a t e ns := by
  simp [joinAll, h]

/-- The join loop processes a succeeding non-primary head and continues. -/
theorem joinAll_cons_ok (env : Env) (p a t : String) (e : K3sExtraOptions)
    (n : Node) (ns : List Node)
    (hc : env.joinConnectErr n.name = none) (hr : env.joinRunErr n.name = none)
    (h : ¬n.name = p) :
    joinAll env p a t e (n :: ns) =
      ((joinAll env p a t e ns).1,
        [.joinAttempt n.name, .joinCmd n.name (joinCmdline n a t e)]
          ++ (joinAll env p a t e ns).2) := by
  rw [joinAll, if_neg h, joinNode_ok env n a t e hc hr]

/-- The join loop stops at a failing non-primary head and returns its error. -/
theorem joinAll_cons_fail (env : Env) (p a t : String) (e : K3sExtraOptions)
    (n : Node) (ns : List Node) (hf : joinFails env n = true) (h : ¬n.name = p) :
    ∃ evs, joinAll env p a t e (n :: ns) =
      (some (n.name, joinFailMsg env n), evs) ∧ joinAttempted evs = [n.name] := by
  obtain ⟨evs, hjn, hatt⟩ := joinNode_fail env n a t e hf
  refine ⟨evs, ?_, hatt⟩
  rw [joinAll, if_neg h, hjn]

/-- When every candidate succeeds, the loop returns no error and attempts
exactly the candidates, in list order. -/
theorem joinAll_ok (env : Env) (p a t : String) (e : K3sExtraOptions) :
    ∀ ns : List Node, (∀ n ∈ joinCandidates ns p, joinFails env n = false) →
      (joinAll env p a t e ns).1 = none ∧
      joinAttempted (joinAll env p a t e ns).2 =
        (joinCandidates ns p).map (fun n => n.name) := by
  intro ns
  induction ns with
  | nil => intro _; exact ⟨rfl, rfl⟩
  | cons n rest ih =>
    intro h
    by_cases hp : n.name = p
    · rw [joinAll_cons_skip env p a t e n rest hp]
      rw [joinCandidates_cons_skip rest p n hp] at h ⊢
      exact ih h
    · have hn : joinFails env n = false := by
        apply h
        rw [joinCandidates_cons_keep rest p n hp]
        exact List.mem_cons_self _ _
      obtain ⟨hc, hr⟩ := joinFails_eq_false env n hn
      have h' : ∀ m ∈ joinCandidates rest p, joinFails env m = false := by
        intro m hm
        apply h
        rw [joinCandidates_cons_keep rest p n hp]
        exact List.mem_cons_of_mem _ hm
      obtain ⟨ih1, ih2⟩ := ih h'
      rw [joinAll_cons_ok env p a t e n rest hc hr hp,
        joinCandidates_cons_keep rest p n hp]
      refine ⟨ih1, ?_⟩
      show joinAttempted (_ ++ _) = _
      rw [joinAttempted_append, ih2]
      simp [joinAttempted]

/-- When the candidate list splits as succeeding nodes, then a failing node,
the loop returns that node's error and attempts exactly the succeeding ones
followed by the failing one; nodes after it are never attempted. -/
theorem joinAll_fail (env : Env) (p a t : String) (e : K3sExtraOptions) :
    ∀ ns pre f rest, joinCandidates ns p = pre ++ f :: rest →
      (∀ n ∈ pre, joinFails env n = false) → joinFails env f = true →
      (joinAll env p a t e ns).1 = some (f.name, joinFailMsg env f) ∧
      joinAttempted (joinAll env p a t e ns).2 =
        pre.map (fun n => n.name) ++ [f.name] := by
  intro ns
  induction ns with
  | nil =>
    intro pre f rest hsplit _ _
    rw [show joinCandidates [] p = [] from rfl] at hsplit
    cases pre <;> simp at hsplit
  | cons n rest' ih =>
    intro pre f rest hsplit hpre hf
    by_cases hp : n.name = p
    · rw [joinCandidates_cons_skip rest' p n hp] at hsplit
      rw [joinAll_cons_skip env p a t e n rest' hp]
      exact ih pre f rest hsplit hpre hf
    · rw [joinCandidates_cons_keep rest' p n hp] at hsplit
      cases pre with
      | nil =>
        simp only [List.nil_append] at hsplit
        obtain ⟨h1, _⟩ := List.cons_eq_cons.mp hsplit
        subst h1
        obtain ⟨evs, hj, hatt⟩ := joinAll_cons_fail env p a t e n rest' hf hp
        rw [hj]
        refine ⟨rfl, ?_⟩
        rw [hatt]
        rfl
      | cons q pre' =>
        simp only [List.cons_append] at hsplit
        obtain ⟨h1, hrest⟩ := List.cons_eq_cons.mp hsplit
        subst h1
        have hq : joinFails env n = false := hpre n (List.mem_cons_self _ _)
        obtain ⟨hc, hr⟩ := joinFails_eq_false env n hq
        have hpre' : ∀ m ∈ pre', joinFails env m = false :=
          fun m hm => hpre m (List.mem_cons_of_mem _ hm)
        obtain ⟨ih1, ih2⟩ := ih pre' f rest hrest hpre' hf
        rw [joinAll_cons_ok env p a t e n rest' hc hr hp]
        refine ⟨ih1, ?_⟩
        show joinAttempted (_ ++ _) = _
        rw [joinAttempted_append, ih2]
        simp [joinAttempted]

/-- Every join command in the join loop's trace belongs to a listed node and
carries exactly the composed command for the loop's token. -/
theorem joinCmd_mem_joinAll (env : Env) (p a t : String) (e : K3sExtraOptions) :
    ∀ ns nn cmd, Event.joinCmd nn cmd ∈ (joinAll env p a t e ns).2 →
      ∃ node, node ∈ ns ∧ nn = node.name ∧ cmd = joinCmdline node a t e := by
  intro ns
  induction ns with
  | nil =>
    intro nn cmd h
    simp [joinAll] at h
  | cons n rest ih =>
    intro nn cmd h
    by_cases hp : n.name = p
    · rw [joinAll_cons_skip env p a t e n rest hp] at h
      obtain ⟨node, hm, h1, h2⟩ := ih nn cmd h
      exact ⟨node, List.mem_cons_of_mem _ hm, h1, h2⟩
    · cases hc : env.joinConnectErr n.name with
      | some msg =>
        have hj : joinAll env p a t e (n :: rest) =
            (some (n.name, msg), [.joinAttempt n.name]) := by
          rw [joinAll, if_neg hp]
          simp [joinNode, hc]
        rw [hj] at h
        simp at h
      | none =>
        cases hr : env.joinRunErr n.name with
        | some msg =>
          have hj : joinAll env p a t e (n :: rest) =
              (some (n.name, msg),
                [.joinAttempt n.name, .joinCmd n.name (joinCmdline n a t e)]) := by
            rw [joinAll, if_neg hp]
            simp [joinNode, hc, hr]
          rw [hj] at h
          simp at h
          exact ⟨n, List.mem_cons_self _ _, h.1, h.2⟩
        | none =>
          rw [joinAll_cons_ok env p a t e n rest hc hr hp] at h
          rcases List.mem_append.mp h with h' | h'
          · simp at h'
            exact ⟨n, List.mem_cons_self _ _, h'.1, h'.2⟩
          · obtain ⟨node, hm, h1, h2⟩ := ih nn cmd h'
            exact ⟨node, List.mem_cons_of_mem _ hm, h1, h2⟩

/-- The Bootstrap Phase never issues a join command or join attempt. -/
theorem joinCmd_not_mem_bootstrapPhase (env : Env) (node : Node) (b : Bool)
    (e : K3sExtraOptions) (nn cmd : String) :
    Event.joinCmd nn cmd ∉ (bootstrapPhase env node b e).2 := by
  rw [bootstrapPhase]
  cases env.bootstrapConnectErr <;> cases env.bootstrapRunErr <;>
    cases env.catErr <;> simp

/-- The Bootstrap Phase with all three remote steps succeeding. -/
theorem bootstrapPhase_ok (env : Env) (n : Node) (b : Bool) (e : K3sExtraOptions)
    (hbc : env.bootstrapConnectErr = none) (hbr : env.bootstrapRunErr = none)
    (hcat : env.catErr = none) :
    bootstrapPhase env n b e =
      (.ok (trimSuffixNewline env.tokenFileContent),
        [.bootstrapCmd n.name (bootstrapCmdline n b e), .catTokenCmd n.name]) := by
  simp [bootstrapPhase, hbc, hbr, hcat]

/-- Whenever the Bootstrap Phase reports success, the token it returns is the
captured file content with one trailing newline stripped, and its trace holds
no join events. -/
theorem bootstrapPhase_ok_inv (env : Env) (n : Node) (b : Bool)
    (e : K3sExtraOptions) (tok : String) (evs : List Event)
    (h : bootstrapPhase env n b e = (.ok tok, evs)) :
    tok = trimSuffixNewline env.tokenFileContent ∧ joinAttempted evs = [] := by
  rw [bootstrapPhase] at h
  cases hbc : env.bootstrapConnectErr with
  | some e0 => rw [hbc] at h; simp at h
  | none =>
    rw [hbc] at h
    cases hbr : env.bootstrapRunErr with
    | some e0 => rw [hbr] at h; simp at h
    | none =>
      rw [hbr] at h
      cases hcat : env.catErr with
      | some e0 => rw [hcat] at h; simp at h
      | none =>
        rw [hcat] at h
        simp only [Prod.mk.injEq, Except.ok.injEq] at h
        obtain ⟨h1, h2⟩ := h
        subst h2
        exact ⟨h1.symm, by simp [joinAttempted]⟩

/-- Deploy when the pre-hook fails. -/
theorem Deploy_preHook_fail (env : Env) (cluster : Cluster) (e : String)
    (hpre : env.preHookErr = some e) :
    Deploy env cluster = (some (.preHookFailed e), []) := by
  simp [Deploy, hpre]

/-- Deploy when the readiness wait fails. -/
theorem Deploy_wait_err (env : Env) (cluster : Cluster) (e : String)
    (hpre : env.preHookErr = none) (hwait : env.waitErr = some e) :
    Deploy env cluster =
      (some (.notReady ("some nodes are not running: " ++ e)), []) := by
  simp [Deploy, hpre, hwait]

/-- Deploy when initialization collected failures. -/
theorem Deploy_init_fail (env : Env) (cluster : Cluster)
    (hpre : env.preHookErr = none) (hwait : env.waitErr = none)
    (hfail : (initPhase env cluster.version cluster.nodes).1 ≠ []) :
    Deploy env cluster =
      (some (.initFailed (initPhase env cluster.version cluster.nodes).1),
        (initPhase env cluster.version cluster.nodes).2) := by
  simp [Deploy, hpre, hwait, hfail]

/-- Deploy when the designated primary cannot be resolved. -/
theorem Deploy_nodeNotFound (env : Env) (cluster : Cluster)
    (hpre : env.preHookErr = none) (hwait : env.waitErr = none)
    (hinit : (initPhase env cluster.version cluster.nodes).1 = [])
    (hget : env.getNode (nodeName cluster.name masterRole 1) = none) :
    Deploy env cluster =
      (some (.nodeNotFound (nodeName cluster.name masterRole 1)),
        (initPhase env cluster.version cluster.nodes).2) := by
  simp [Deploy, hpre, hwait, hinit, hget]

/-- Deploy when the bootstrap phase fails. -/
theorem Deploy_bootstrap_fail (env : Env) (cluster : Cluster) (m : Node)
    (e : String) (bevs : List Event)
    (hpre : env.preHookErr = none) (hwait : env.waitErr = none)
    (hinit : (initPhase env cluster.version cluster.nodes).1 = [])
    (hget : env.getNode (nodeName cluster.name masterRole 1) = some m)
    (hbp : bootstrapPhase env m (cluster.nodes.length == 1) env.parsedExtraOptions
      = (.error e, bevs)) :
    Deploy env cluster =
      (some (.bootstrapFailed e),
        (initPhase env cluster.version cluster.nodes).2 ++ bevs) := by
  simp [Deploy, hpre, hwait, hinit, hget, hbp]

/-- Deploy when the post-bootstrap listing fails. -/
theorem Deploy_list_fail (env : Env) (cluster : Cluster) (m : Node)
    (tok : String) (bevs : List Event) (e : String)
    (hpre : env.preHookErr = none) (hwait : env.waitErr = none)
    (hinit : (initPhase env cluster.version cluster.nodes).1 = [])
    (hget : env.getNode (nodeName cluster.name masterRole 1) = some m)
    (hbp : bootstrapPhase env m (cluster.nodes.length == 1) env.parsedExtraOptions
      = (.ok tok, bevs))
    (hlist : env.listNodesResult = .error e) :
    Deploy env cluster =
      (some (.listFailed e),
        (initPhase env cluster.version cluster.nodes).2 ++ bevs) := by
  simp [Deploy, hpre, hwait, hinit, hget, hbp, hlist]

/-- Deploy when the post-bootstrap listing is empty. -/
theorem Deploy_list_empty (env : Env) (cluster : Cluster) (m : Node)
    (tok : String) (bevs : List Event)
    (hpre : env.preHookErr = none) (hwait : env.waitErr = none)
    (hinit : (initPhase env cluster.version cluster.nodes).1 = [])
    (hget : env.getNode (nodeName cluster.name masterRole 1) = some m)
    (hbp : bootstrapPhase env m (cluster.nodes.length == 1) env.parsedExtraOptions
      = (.ok tok, bevs))
    (hlist : env.listNodesResult = .ok []) :
    Deploy env cluster =
      (some .noNodesAvailable,
        (initPhase env cluster.version cluster.nodes).2 ++ bevs) := by
  simp [Deploy, hpre, hwait, hinit, hget, hbp, hlist]

/-- Deploy reduced to its join loop: the successful case. -/
theorem Deploy_join_ok (env : Env) (cluster : Cluster) (m : Node)
    (ns : List Node) (tok : String) (bevs jevs : List Event)
    (hpre : env.preHookErr = none) (hwait : env.waitErr = none)
    (hinit : (initPhase env cluster.version cluster.nodes).1 = [])
    (hget : env.getNode (nodeName cluster.name masterRole 1) = some m)
    (hbp : bootstrapPhase env m (cluster.nodes.length == 1) env.parsedExtraOptions
      = (.ok tok, bevs))
    (hlist : env.listNodesResult = .ok ns) (hne : ns ≠ [])
    (hJoin : joinAll env m.name m.ipAddresses tok env.parsedExtraOptions ns
      = (none, jevs)) :
    Deploy env cluster =
      (none,
        (initPhase env cluster.version cluster.nodes).2 ++ bevs ++ jevs) := by
  simp [Deploy, hpre, hwait, hinit, hget, hbp, hlist, hne, hJoin]

/-- Deploy reduced to its join loop: the first-failure case. -/
theorem Deploy_join_fail (env : Env) (cluster : Cluster) (m : Node)
    (ns : List Node) (tok : String) (bevs jevs : List Event) (nn msg : String)
    (hpre : env.preHookErr = none) (hwait : env.waitErr = none)
    (hinit : (initPhase env cluster.version cluster.nodes).1 = [])
    (hget : env.getNode (nodeName cluster.name masterRole 1) = some m)
    (hbp : bootstrapPhase env m (cluster.nodes.length == 1) env.parsedExtraOptions
      = (.ok tok, bevs))
    (hlist : env.listNodesResult = .ok ns) (hne : ns ≠ [])
    (hJoin : joinAll env m.name m.ipAddresses tok env.parsedExtraOptions ns
      = (some (nn, msg), jevs)) :
    Deploy env cluster =
      (some (.joinFailed nn msg),
        (initPhase env cluster.version cluster.nodes).2 ++ bevs ++ jevs) := by
  simp [Deploy, hpre, hwait, hinit, hget, hbp, hlist, hne, hJoin]

/-- C6: in a deploy that reaches the join loop, join attempts go to the listed
nodes except the primary, in exactly the list order: if every candidate
succeeds all are attempted in order, and if the candidates split as
succeeding nodes followed by a first failing node, Deploy returns that node's
error and the attempted nodes are exactly the succeeding ones followed by the
failing one — nodes after it are never attempted. -/
theorem C6_join_order (env : Env) (cluster : Cluster) (m : Node) (ns : List Node)
    (hpre : env.preHookErr = none) (hwait : env.waitErr = none)
    (hinit : (initPhase env cluster.version cluster.nodes).1 = [])
    (hget : env.getNode (nodeName cluster.name masterRole 1) = some m)
    (hbc : env.bootstrapConnectErr = none) (hbr : env.bootstrapRunErr = none)
    (hcat : env.catErr = none)
    (hlist : env.listNodesResult = .ok ns) (hne : ns ≠ []) :
    ((∀ n ∈ joinCandidates ns m.name, joinFails env n = false) →
      (Deploy env cluster).1 = none ∧
      joinAttempted (Deploy env cluster).2 =
        (joinCandidates ns m.name).map (fun n => n.name)) ∧
    (∀ pre f rest, joinCandidates ns m.name = pre ++ f :: rest →
      (∀ n ∈ pre, joinFails env n = false) → joinFails env f = true →
      (Deploy env cluster).1 = some (.joinFailed f.name (joinFailMsg env f)) ∧
      joinAttempted (Deploy env cluster).2 =
        pre.map (fun n => n.name) ++ [f.name]) := by
  obtain ⟨_, _, i3, _⟩ := initPhase_trace env cluster.version cluster.nodes
  constructor
  · intro hall
    obtain ⟨j1, j2⟩ := joinAll_ok env m.name m.ipAddresses
      (trimSuffixNewline env.tokenFileContent) env.parsedExtraOptions ns hall
    have hJoin : joinAll env m.name m.ipAddresses
        (trimSuffixNewline env.tokenFileContent) env.parsedExtraOptions ns =
        (none, (joinAll env m.name m.ipAddresses
          (trimSuffixNewline env.tokenFileContent) env.parsedExtraOptions ns).2) := by
      rw [← j1]
    have hD := Deploy_join_ok env cluster m ns _ _ _ hpre hwait hinit hget
      (bootstrapPhase_ok env m (cluster.nodes.length == 1) env.parsedExtraOptions
        hbc hbr hcat) hlist hne hJoin
    rw [hD]
    refine ⟨rfl, ?_⟩
    rw [joinAttempted_append, joinAttempted_append, i3, j2]
    simp [joinAttempted]
  · intro pre f rest hsplit hpref hf
    obtain ⟨j1, j2⟩ := joinAll_fail env m.name m.ipAddresses
      (trimSuffixNewline env.tokenFileContent) env.parsedExtraOptions ns pre f rest
      hsplit hpref hf
    have hJoin : joinAll env m.name m.ipAddresses
        (trimSuffixNewline env.tokenFileContent) env.parsedExtraOptions ns =
        (some (f.name, joinFailMsg env f), (joinAll env m.name m.ipAddresses
          (trimSuffixNewline env.tokenFileContent) env.parsedExtraOptions ns).2) := by
      rw [← j1]
    have hD := Deploy_join_fail env cluster m ns _ _ _ f.name (joinFailMsg env f)
      hpre hwait hinit hget
      (bootstrapPhase_ok env m (cluster.nodes.length == 1) env.parsedExtraOptions
        hbc hbr hcat) hlist hne hJoin
    rw [hD]
    refine ⟨rfl, ?_⟩
    rw [joinAttempted_append, joinAttempted_append, i3, j2]
    simp [joinAttempted]

/-- C6 witness: with every join succeeding, both secondaries are attempted in
list order; with the first secondary's join failing, Deploy returns its error
and the second secondary is never attempted. -/
theorem C6_join_order_witness :
    ((Deploy demoEnv3 demoCluster3).1 = none ∧
      joinAttempted (Deploy demoEnv3 demoCluster3).2 =
        ["demo-node-2", "demo-node-3"]) ∧
    ((Deploy envJoinFail3 demoCluster3).1 =
        some (.joinFailed "demo-node-2" "exit status 1") ∧
      joinAttempted (Deploy envJoinFail3 demoCluster3).2 = ["demo-node-2"]) := by
  constructor
  · have h := (C6_join_order demoEnv3 demoCluster3 demoMaster
      [demoMaster, demoNode2, demoNode3] rfl rfl (by decide) (by decide) rfl rfl rfl
      rfl (by decide)).1 (by decide)
    exact ⟨h.1, h.2.trans (by decide)⟩
  · have h := (C6_join_order envJoinFail3 demoCluster3 demoMaster
      [demoMaster, demoNode2, demoNode3] rfl rfl (by decide) (by decide) rfl rfl rfl
      rfl (by decide)).2 [] demoNode2 [demoNode3] (by decide) (by simp) (by decide)
    exact ⟨h.1.trans (by decide), h.2.trans (by decide)⟩

/-- C9: in a deploy whose bootstrap succeeded, Deploy fails with the
no-nodes-available error exactly when the post-bootstrap listing is empty,
and in that case no join is ever attempted. -/
theorem C9_noNodesAvailable (env : Env) (cluster : Cluster) (m : Node)
    (ns : List Node)
    (hpre : env.preHookErr = none) (hwait : env.waitErr = none)
    (hinit : (initPhase env cluster.version cluster.nodes).1 = [])
    (hget : env.getNode (nodeName cluster.name masterRole 1) = some m)
    (hbc : env.bootstrapConnectErr = none) (hbr : env.bootstrapRunErr = none)
    (hcat : env.catErr = none)
    (hlist : env.listNodesResult = .ok ns) :
    ((Deploy env cluster).1 = some .noNodesAvailable ↔ ns = []) ∧
    (ns = [] → joinAttempted (Deploy env cluster).2 = []) := by
  obtain ⟨_, _, i3, _⟩ := initPhase_trace env cluster.version cluster.nodes
  by_cases hns : ns = []
  · subst hns
    have hD := Deploy_list_empty env cluster m _ _ hpre hwait hinit hget
      (bootstrapPhase_ok env m (cluster.nodes.length == 1) env.parsedExtraOptions
        hbc hbr hcat) hlist
    rw [hD]
    refine ⟨by simp, fun _ => ?_⟩
    rw [joinAttempted_append, i3]
    simp [joinAttempted]
  · rcases hJ : joinAll env m.name m.ipAddresses
        (trimSuffixNewline env.tokenFileContent) env.parsedExtraOptions ns
      with ⟨r, jevs⟩
    cases r with
    | none =>
      have hD := Deploy_join_ok env cluster m ns _ _ jevs hpre hwait hinit hget
        (bootstrapPhase_ok env m (cluster.nodes.length == 1) env.parsedExtraOptions
          hbc hbr hcat) hlist hns hJ
      rw [hD]
      exact ⟨by simp [hns], fun h => absurd h hns⟩
    | some q =>
      obtain ⟨nn, msg⟩ := q
      have hD := Deploy_join_fail env cluster m ns _ _ jevs nn msg hpre hwait hinit
        hget (bootstrapPhase_ok env m (cluster.nodes.length == 1)
          env.parsedExtraOptions hbc hbr hcat) hlist hns hJ
      rw [hD]
      refine ⟨⟨fun h => ?_, fun h => absurd h hns⟩, fun h => absurd h hns⟩
      simp at h

/-- C9 witness: an empty post-bootstrap listing. -/
theorem C9_noNodesAvailable_witness :
    ((Deploy envEmptyList demoCluster2).1 = some .noNodesAvailable ↔
      ([] : List Node) = []) ∧
    (([] : List Node) = [] →
      joinAttempted (Deploy envEmptyList demoCluster2).2 = []) :=
  C9_noNodesAvailable envEmptyList demoCluster2 demoMaster [] rfl rfl (by decide)
    (by decide) rfl rfl rfl rfl

/-- If the first join candidate's connection succeeds, its join command is in
the loop's trace (whatever the token, and whether or not the command then
fails). -/
theorem joinCmd_head_mem_joinAll (env : Env) (p a t : String) (e : K3sExtraOptions) :
    ∀ ns n rest, joinCandidates ns p = n :: rest →
      env.joinConnectErr n.name = none →
      Event.joinCmd n.name (joinCmdline n a t e) ∈ (joinAll env p a t e ns).2 := by
  intro ns
  induction ns with
  | nil =>
    intro n rest h _
    rw [show joinCandidates [] p = [] from rfl] at h
    simp at h
  | cons q rest' ih =>
    intro n rest h hc
    by_cases hp : q.name = p
    · rw [joinCandidates_cons_skip rest' p q hp] at h
      rw [joinAll_cons_skip env p a t e q rest' hp]
      exact ih n rest h hc
    · rw [joinCandidates_cons_keep rest' p q hp] at h
      obtain ⟨h1, _⟩ := List.cons_eq_cons.mp h
      subst h1
      cases hr : env.joinRunErr q.name with
      | none =>
        rw [joinAll_cons_ok env p a t e q rest' hc hr hp]
        apply List.mem_append_left
        simp
      | some msg =>
        have hj : joinAll env p a t e (q :: rest') =
            (some (q.name, msg),
              [.joinAttempt q.name, .joinCmd q.name (joinCmdline q a t e)]) := by
          rw [joinAll, if_neg hp]
          simp [joinNode, hc, hr]
        rw [hj]
        simp

/-- C8 (amended): Deploy never checks the harvested token for emptiness: in a
deploy that reaches the join loop whose first candidate's connection
succeeds, the join command is issued carrying whatever token was harvested —
the empty token included. -/
theorem C8_no_token_check (env : Env) (cluster : Cluster) (m : Node)
    (ns : List Node) (n : Node) (rest : List Node)
    (hpre : env.preHookErr = none) (hwait : env.waitErr = none)
    (hinit : (initPhase env cluster.version cluster.nodes).1 = [])
    (hget : env.getNode (nodeName cluster.name masterRole 1) = some m)
    (hbc : env.bootstrapConnectErr = none) (hbr : env.bootstrapRunErr = none)
    (hcat : env.catErr = none)
    (hlist : env.listNodesResult = .ok ns) (hne : ns ≠ [])
    (hsplit : joinCandidates ns m.name = n :: rest)
    (hc : env.joinConnectErr n.name = none) :
    Event.joinCmd n.name
        (joinCmdline n m.ipAddresses (trimSuffixNewline env.tokenFileContent)
          env.parsedExtraOptions)
      ∈ (Deploy env cluster).2 := by
  have hmem := joinCmd_head_mem_joinAll env m.name m.ipAddresses
    (trimSuffixNewline env.tokenFileContent) env.parsedExtraOptions ns n rest
    hsplit hc
  rcases hJ : joinAll env m.name m.ipAddresses
      (trimSuffixNewline env.tokenFileContent) env.parsedExtraOptions ns
    with ⟨r, jevs⟩
  rw [hJ] at hmem
  cases r with
  | none =>
    rw [Deploy_join_ok env cluster m ns _ _ jevs hpre hwait hinit hget
      (bootstrapPhase_ok env m (cluster.nodes.length == 1) env.parsedExtraOptions
        hbc hbr hcat) hlist hne hJ]
    exact List.mem_append_right _ hmem
  | some q =>
    obtain ⟨nn, msg⟩ := q
    rw [Deploy_join_fail env cluster m ns _ _ jevs nn msg hpre hwait hinit hget
      (bootstrapPhase_ok env m (cluster.nodes.length == 1) env.parsedExtraOptions
        hbc hbr hcat) hlist hne hJ]
    exact List.mem_append_right _ hmem

/-- C8 witness: the token file holds only a newline, so the harvested token is
empty, and the secondary's join command is still issued with that empty
token. -/
theorem C8_no_token_check_witness :
    trimSuffixNewline envEmptyToken.tokenFileContent = "" ∧
    Event.joinCmd demoNode2.name
        (joinCmdline demoNode2 demoMaster.ipAddresses
          (trimSuffixNewline envEmptyToken.tokenFileContent)
          envEmptyToken.parsedExtraOptions)
      ∈ (Deploy envEmptyToken demoCluster2).2 :=
  ⟨by decide,
    C8_no_token_check envEmptyToken demoCluster2 demoMaster [demoMaster, demoNode2]
      demoNode2 [] rfl rfl (by decide) (by decide) rfl rfl rfl rfl (by decide)
      (by decide) rfl⟩

/-- C8 counterexample: the claim "if the harvested token is empty, no join
command is ever issued" is false: with a token file holding only a newline
the token is empty, yet Deploy issues a join command. -/
theorem C8_counterexample :
    trimSuffixNewline envEmptyToken.tokenFileContent = "" ∧
    joinIssued (Deploy envEmptyToken demoCluster2).2 = true := by
  decide

/-- The join command ends with the token placed between K3S_TOKEN= and the
installer invocation. -/
theorem joinCmdline_token (n : Node) (a t : String) (e : K3sExtraOptions) :
    ∃ p, joinCmdline n a t e = p ++ ("K3S_TOKEN=" ++ t ++ " k3s-install.sh") := by
  refine ⟨"INSTALL_K3S_EXEC=\"" ++ String.intercalate " " (joinOpts n e) ++ "\" "
      ++ e.extraOptions ++ "K3S_URL=https://" ++ a ++ ":6443 ", ?_⟩
  apply String.ext
  rw [joinCmdline]
  simp only [String.data_append]
  simp [List.append_assoc]

/-- C3: the harvested token is the captured credential-file content with
exactly one trailing newline removed (unchanged when the content does not end
in a newline), and every join command any deploy issues embeds exactly that
token string after K3S_TOKEN=. -/
theorem C3_token_propagation (env : Env) (cluster : Cluster) (nn cmd : String)
    (h : Event.joinCmd nn cmd ∈ (Deploy env cluster).2) :
    (env.tokenFileContent.data.getLast? = some '\n' →
      env.tokenFileContent = trimSuffixNewline env.tokenFileContent ++ "\n") ∧
    (env.tokenFileContent.data.getLast? ≠ some '\n' →
      trimSuffixNewline env.tokenFileContent = env.tokenFileContent) ∧
    ∃ p, cmd = p ++ ("K3S_TOKEN=" ++ trimSuffixNewline env.tokenFileContent
      ++ " k3s-install.sh") := by
  refine ⟨(trimSuffixNewline_eq _).1, (trimSuffixNewline_eq _).2, ?_⟩
  obtain ⟨_, _, _, i4⟩ := initPhase_trace env cluster.version cluster.nodes
  cases hpre : env.preHookErr with
  | some e0 => rw [Deploy_preHook_fail env cluster e0 hpre] at h; simp at h
  | none =>
  cases hwait : env.waitErr with
  | some e0 => rw [Deploy_wait_err env cluster e0 hpre hwait] at h; simp at h
  | none =>
  by_cases hinit : (initPhase env cluster.version cluster.nodes).1 = []
  case neg =>
    rw [Deploy_init_fail env cluster hpre hwait hinit] at h
    exact absurd h (i4 nn cmd)
  case pos =>
  cases hget : env.getNode (nodeName cluster.name masterRole 1) with
  | none =>
    rw [Deploy_nodeNotFound env cluster hpre hwait hinit hget] at h
    exact absurd h (i4 nn cmd)
  | some m =>
  rcases hbp : bootstrapPhase env m (cluster.nodes.length == 1)
      env.parsedExtraOptions with ⟨res, bevs⟩
  have hbmem : ∀ nn' cmd', Event.joinCmd nn' cmd' ∉ bevs := by
    intro nn' cmd'
    have hnb := joinCmd_not_mem_bootstrapPhase env m (cluster.nodes.length == 1)
      env.parsedExtraOptions nn' cmd'
    rw [hbp] at hnb
    exact hnb
  cases res with
  | error e0 =>
    rw [Deploy_bootstrap_fail env cluster m e0 bevs hpre hwait hinit hget hbp] at h
    rcases List.mem_append.mp h with h' | h'
    · exact absurd h' (i4 nn cmd)
    · exact absurd h' (hbmem nn cmd)
  | ok tok =>
  obtain ⟨htok, _⟩ := bootstrapPhase_ok_inv env m (cluster.nodes.length == 1)
    env.parsedExtraOptions tok bevs hbp
  cases hlist : env.listNodesResult with
  | error e0 =>
    rw [Deploy_list_fail env cluster m tok bevs e0 hpre hwait hinit hget hbp
      hlist] at h
    rcases List.mem_append.mp h with h' | h'
    · exact absurd h' (i4 nn cmd)
    · exact absurd h' (hbmem nn cmd)
  | ok ns =>
  by_cases hns : ns = []
  · subst hns
    rw [Deploy_list_empty env cluster m tok bevs hpre hwait hinit hget hbp
      hlist] at h
    rcases List.mem_append.mp h with h' | h'
    · exact absurd h' (i4 nn cmd)
    · exact absurd h' (hbmem nn cmd)
  · rcases hJ : joinAll env m.name m.ipAddresses tok env.parsedExtraOptions ns
      with ⟨r, jevs⟩
    have hj : Event.joinCmd nn cmd ∈ jevs := by
      cases r with
      | none =>
        rw [Deploy_join_ok env cluster m ns tok bevs jevs hpre hwait hinit hget
          hbp hlist hns hJ] at h
        rcases List.mem_append.mp h with h' | h'
        · rcases List.mem_append.mp h' with h'' | h''
          · exact absurd h'' (i4 nn cmd)
          · exact absurd h'' (hbmem nn cmd)
        · exact h'
      | some q =>
        obtain ⟨nn', msg'⟩ := q
        rw [Deploy_join_fail env cluster m ns tok bevs jevs nn' msg' hpre hwait
          hinit hget hbp hlist hns hJ] at h
        rcases List.mem_append.mp h with h' | h'
        · rcases List.mem_append.mp h' with h'' | h''
          · exact absurd h'' (i4 nn cmd)
          · exact absurd h'' (hbmem nn cmd)
        · exact h'
    have hmem2 : Event.joinCmd nn cmd ∈
        (joinAll env m.name m.ipAddresses tok env.parsedExtraOptions ns).2 := by
      rw [hJ]
      exact hj
    obtain ⟨node, _, _, hcmd⟩ := joinCmd_mem_joinAll env m.name m.ipAddresses
      tok env.parsedExtraOptions ns nn cmd hmem2
    subst htok
    obtain ⟨p, hp⟩ := joinCmdline_token node m.ipAddresses
      (trimSuffixNewline env.tokenFileContent) env.parsedExtraOptions
    exact ⟨p, hcmd.trans hp⟩

/-- C3 witness: a concrete successful two-node deploy whose secondary's join
command carries the stripped token. -/
theorem C3_token_propagation_witness :
    Event.joinCmd demoNode2.name
        (joinCmdline demoNode2 demoMaster.ipAddresses
          (trimSuffixNewline demoEnv.tokenFileContent) demoEnv.parsedExtraOptions)
      ∈ (Deploy demoEnv demoCluster2).2 ∧
    ((demoEnv.tokenFileContent.data.getLast? = some '\n' →
      demoEnv.tokenFileContent =
        trimSuffixNewline demoEnv.tokenFileContent ++ "\n") ∧
    (demoEnv.tokenFileContent.data.getLast? ≠ some '\n' →
      trimSuffixNewline demoEnv.tokenFileContent = demoEnv.tokenFileContent) ∧
    ∃ p, joinCmdline demoNode2 demoMaster.ipAddresses
        (trimSuffixNewline demoEnv.tokenFileContent) demoEnv.parsedExtraOptions =
      p ++ ("K3S_TOKEN=" ++ trimSuffixNewline demoEnv.tokenFileContent
        ++ " k3s-install.sh")) :=
  ⟨by decide,
    C3_token_propagation demoEnv demoCluster2 demoNode2.name
      (joinCmdline demoNode2 demoMaster.ipAddresses
        (trimSuffixNewline demoEnv.tokenFileContent) demoEnv.parsedExtraOptions)
      (by decide)⟩

end Kubefire
